import Mathlib

/-!
Shallow embedding of the classification-and-reply decision engine of the
`gpt_test_dashboard` repository (`app_local.py`, `prompt.py`,
`ghl_integration.py`), together with theorems settling the frozen claims
about it.

Python strings are modelled as Lean `String`s (operated on through their
character lists); the external model capabilities (zero-shot classifier,
GPT-2 text generation) are modelled as `Option String` oracles, `none`
standing for a raised exception.  `str.lower` is modelled for ASCII text
(all configured keywords and templates are ASCII).
-/

/- ------------------------------------------------------------------ -/
/- Python string primitives                                            -/
/- ------------------------------------------------------------------ -/

/-- Prefix test on character lists. -/
def isPrefixL : List Char → List Char → Bool
  | [], _ => true
  | _ :: _, [] => false
  | a :: as, b :: bs => a == b && isPrefixL as bs

/-- Python's substring test `needle in hay` on character lists. -/
def containsL (needle : List Char) : List Char → Bool
  | [] => needle.isEmpty
  | c :: rest => isPrefixL needle (c :: rest) || containsL needle rest

/-- Python's `needle in hay` for strings. -/
def containsSub (needle hay : String) : Bool :=
  containsL needle.toList hay.toList

/-- Python's `str.lower()` (ASCII model; every configured keyword,
template and tested string is ASCII). -/
def pyLower (s : String) : String :=
  String.mk (s.toList.map Char.toLower)

/-- The characters Python's `str.strip()` and the regex class
`\s` treat as whitespace (ASCII part). -/
def pyIsSpace (c : Char) : Bool :=
  c == ' ' || c == '\t' || c == '\n' || c == '\r' || c == '\x0b' || c == '\x0c'

def stripL (l : List Char) : List Char :=
  ((l.dropWhile pyIsSpace).reverse.dropWhile pyIsSpace).reverse

/-- Python's `str.strip()`. -/
def pyStrip (s : String) : String := String.mk (stripL s.toList)

/-- Python's `str.replace(needle, repl)`: left-to-right, non-overlapping,
the replacement text is not rescanned.  Structural recursion on a fuel
equal to the haystack length (each step consumes at least one character),
so the function evaluates by kernel reduction.  For an empty `needle`
Python interleaves `repl` between the characters; the sources only ever
replace a nonempty pattern or replace with the empty string, where this
definition agrees. -/
def replaceAllAux (needle repl : List Char) : Nat → List Char → List Char
  | 0, l => l
  | _ + 1, [] => []
  | fuel + 1, c :: rest =>
    if needle ≠ [] ∧ isPrefixL needle (c :: rest) = true then
      repl ++ replaceAllAux needle repl fuel ((c :: rest).drop needle.length)
    else
      c :: replaceAllAux needle repl fuel rest

def pyReplace (s needle repl : String) : String :=
  String.mk (replaceAllAux needle.toList repl.toList s.toList.length s.toList)

/-- Association-list lookup, modelling Python `dict` access in insertion
order (all the embedded dicts have string keys). -/
def alookup {α : Type} (k : String) : List (String × α) → Option α
  | [] => none
  | p :: rest => if p.1 = k then some p.2 else alookup k rest

/-- Key-membership test `k in d` for an embedded dict. -/
def keyMem {α : Type} (k : String) (l : List (String × α)) : Bool :=
  (l.map Prod.fst).contains k

/-- One comparison step of Python's `max`: the later element wins only
when it is strictly greater, so the first maximal element survives. -/
def maxPair (p q : String × Nat) : String × Nat :=
  if q.2 > p.2 then q else p

/-- Python's `max(d, key=d.get)` over a dict given as its first pair and
the remaining pairs (ties resolved to the first-inserted key). -/
def pyMaxPairs (p : String × Nat) (rest : List (String × Nat)) : String × Nat :=
  rest.foldl maxPair p

/-- Python's `max` of a nonempty list of naturals (0 is absorbed). -/
def maxVal (l : List Nat) : Nat := l.foldl Nat.max 0

/- ------------------------------------------------------------------ -/
/- prompt.py                                                           -/
/- ------------------------------------------------------------------ -/

/-- SPIRITUAL_TEMPLATES["LEAD"]["devotional"] -/
def lead_devotional : List String := [
  "We'd love for you to walk with us through this journey. Check your DM for the devotional link - may it meet you right where you are.",
  "Your interest is a beautiful thing. We'll send you the details - this invitation to deeper truth is always open.",
  "So glad this resonated with you. The devotional link is coming your way - may each word point you to His grace."]

/-- SPIRITUAL_TEMPLATES["LEAD"]["general"] -/
def lead_general : List String := [
  "That pull you feel? It's real. We'll DM you the next steps - no perfection required, just an open heart.",
  "We're honored by your interest. Details coming to your inbox - may this be the beginning of something beautiful.",
  "Your curiosity is sacred ground. Check your messages for more - He's already preparing the way."]

/-- SPIRITUAL_TEMPLATES["PRAISE"]["emotional"] -/
def praise_emotional : List String := [
  "Tears are sacred, especially when truth touches something deep. We're honored this moved you.",
  "We take no responsibility for tear-streaked spreadsheets, but we're grateful it met you where you needed it.",
  "Your words are a gift. May this truth continue to echo in the spaces that need it most."]

/-- SPIRITUAL_TEMPLATES["PRAISE"]["general"] -/
def praise_general : List String := [
  "We're so grateful it resonated with you. May it lead you deeper into the truth of who you are in Him.",
  "Thank you for sharing this. It's a joy to know these words found their way to your heart.",
  "Your encouragement means everything. May every blessing point you back to the Source of all good things."]

/-- SPIRITUAL_TEMPLATES["QUESTION"]["doubt"] -/
def question_doubt : List String := [
  "You're not alone in wondering that. The invitation of grace is personal, and yes, it includes you.",
  "That's a brave question to ask. Faith isn't about having all the answers - it's about trusting the One who does.",
  "Your honesty is refreshing. Let's explore this together - check your DM for a deeper conversation."]

/-- SPIRITUAL_TEMPLATES["QUESTION"]["seeking"] -/
def question_seeking : List String := [
  "Beautiful question. Our foundation is deeply spiritual - this isn't just motivation, it's transformation.",
  "Thank you for asking. The short answer is yes, but the full story is even better - DMing you now.",
  "Great question. Truth often stirs curiosity first - let's continue this conversation privately."]

/-- SPIRITUAL_TEMPLATES["COMPLAINT"]["hurt"] -/
def complaint_hurt : List String := [
  "You don't have to pretend here. God meets us in our honesty, not our perfection.",
  "That pain is real, and so is His presence in it. We're here to hold space for your journey.",
  "Your struggle matters. Sometimes the wilderness is where the deepest healing begins."]

/-- SPIRITUAL_TEMPLATES["COMPLAINT"]["criticism"] -/
def complaint_criticism : List String := [
  "We hear your concern. Our aim is to honor Scripture while making space for grace and growth.",
  "Thank you for your honesty. We understand this may not resonate with everyone, and that's okay.",
  "We appreciate you sharing your perspective. May you find the peace you're looking for."]

/-- SPIRITUAL_TEMPLATES["SPAM"]["default"] -/
def spam_default : List String := [
  "We hope you find what you're searching for. Blessings on your journey.",
  "Thank you for stopping by. May grace meet you wherever you are.",
  "Peace to you, friend. Our door is always open for genuine connection."]

/-- The nested template table of prompt.py. -/
def SPIRITUAL_TEMPLATES : List (String × List (String × List String)) := [
  ("LEAD", [("devotional", lead_devotional), ("general", lead_general)]),
  ("PRAISE", [("emotional", praise_emotional), ("general", praise_general)]),
  ("QUESTION", [("doubt", question_doubt), ("seeking", question_seeking)]),
  ("COMPLAINT", [("hurt", complaint_hurt), ("criticism", complaint_criticism)]),
  ("SPAM", [("default", spam_default)])]

/-- The context-keyword taxonomy of prompt.py. -/
def SPIRITUAL_KEYWORDS : List (String × List String) := [
  ("emotional", ["crying", "tears", "moved", "touched", "felt", "heart", "soul"]),
  ("seeking", ["searching", "looking", "want to believe", "help me", "show me", "curious"]),
  ("doubt", ["struggling", "doubt", "hard to believe", "questioning", "wondering", "confused"]),
  ("praise", ["blessed", "grateful", "amazing", "powerful", "beautiful", "thank you"]),
  ("hurt", ["broken", "lost", "alone", "abandoned", "failed", "messed up", "tired"]),
  ("devotional", ["devotional", "study", "course", "program", "resource", "material"])]

/-- prompt.py `get_keyword_context`: count keyword hits per context, keep
the positive ones in declaration order, return the first maximal context
or "general" when nothing scored. -/
def get_keyword_context (comment : String) : String :=
  let comment_lower := pyLower comment
  let scores := (SPIRITUAL_KEYWORDS.map (fun p =>
    (p.1, (p.2.map (fun k => if containsSub k comment_lower then 1 else 0)).sum))).filter
      (fun p => 0 < p.2)
  match scores with
  | [] => "general"
  | p :: rest => (pyMaxPairs p rest).1

/-- The hard-coded last-resort template of `get_template_response`. -/
def hardcoded_fallback : String := "Thank you for reaching out. Blessings to you."

/-- The if/elif/else chain of `get_template_response` over a category's
template set: the context bucket if its key is present, else "general" if
present, else `.get("default", [hardcoded_fallback])`. -/
def bucketChain (category_templates : List (String × List String)) (context : String) : List String :=
  match alookup context category_templates with
  | some ts => ts
  | none =>
    match alookup "general" category_templates with
    | some ts => ts
    | none => (alookup "default" category_templates).getD [hardcoded_fallback]

/-- The bucket-resolution part of prompt.py `get_template_response`,
starting from `SPIRITUAL_TEMPLATES.get(category, SPIRITUAL_TEMPLATES["SPAM"])`.
(The `.getD []` on the "SPAM" access is unreachable: the key is present.) -/
def templatesFor (category context : String) : List String :=
  bucketChain
    ((alookup category SPIRITUAL_TEMPLATES).getD
      ((alookup "SPAM" SPIRITUAL_TEMPLATES).getD []))
    context

/-- prompt.py `get_template_response`: resolve the bucket, then index by
`len(comment) % len(templates)`.  Every resolvable bucket is nonempty, so
the `""` default of `getD` is unreachable. -/
def get_template_response (category comment : String) : String :=
  let templates := templatesFor category (get_keyword_context comment)
  templates.getD (comment.length % templates.length) ""

/-- REPLY_GENERATION_PROMPTS["QUESTION"], also the `.get` default. -/
def question_reply_generation : String :=
  "\nSomeone asked about faith/spirituality: \"{comment}\"\n\nExamples of good responses:\n- \"Great question. Our foundation is deeply spiritual - this truth isn't just motivational, it's transformative.\"\n- \"You're not alone in wondering that. The invitation of grace includes you, even when you doubt.\"\n\nWrite a thoughtful spiritual reply (2 sentences):"

/-- The per-category GPT-2 prompt table of prompt.py. -/
def REPLY_GENERATION_PROMPTS : List (String × String) := [
  ("LEAD", "\nSomeone interested in spiritual content commented: \"{comment}\"\n\nExamples of good responses:\n- \"We'd love for you to walk with us through it. Here's the link to get started.\"\n- \"That desire is a whisper from God's heart to yours. The next step doesn't require perfection.\"\n\nWrite a warm spiritual reply (2 sentences):"),
  ("PRAISE", "\nSomeone shared positive spiritual feedback: \"{comment}\"\n\nExamples of good responses:\n- \"We're so grateful it resonated with you. May it continue to lead you deeper into His truth.\"\n- \"Your words are a gift. May every encouragement point you back to the One who uplifts us all.\"\n\nWrite a humble, grateful reply (2 sentences):"),
  ("SPAM", "\nSpam comment received: \"{comment}\"\n\nExample response:\n- \"We genuinely hope you find peace wherever your journey leads.\"\n\nWrite a brief, gracious reply (1 sentence):"),
  ("QUESTION", question_reply_generation),
  ("COMPLAINT", "\nSomeone struggling with faith commented: \"{comment}\"\n\nExamples of good responses:\n- \"That silence can feel so loud. But even there, you're not abandoned - sometimes stillness is where He whispers.\"\n- \"You don't have to pretend here. God meets us in honesty, not perfection.\"\n\nWrite an empathetic spiritual reply (2 sentences):")]

/- ------------------------------------------------------------------ -/
/- app_local.py                                                        -/
/- ------------------------------------------------------------------ -/

/-- The category description table of `LocalSocialMediaAI.__init__`. -/
def category_descriptions : List (String × String) := [
  ("LEAD", "interested in devotionals spiritual resources or faith content"),
  ("PRAISE", "positive spiritual feedback testimonial or expressing gratitude to God"),
  ("SPAM", "irrelevant promotional content or suspicious links"),
  ("QUESTION", "asking about faith God spirituality or seeking spiritual guidance"),
  ("COMPLAINT", "spiritual struggles doubts criticism or expressing hurt")]

/-- The keyword table of `_spiritual_keyword_classification`, in its
declaration (iteration) order: COMPLAINT is declared before QUESTION. -/
def keyword_patterns : List (String × List String) := [
  ("LEAD", ["devotional", "interested", "get this", "how can i", "want to", "course", "resource"]),
  ("PRAISE", ["blessed", "grateful", "thank", "moved", "powerful", "tears", "crying", "amazing"]),
  ("SPAM", ["click here", "free followers", "bit.ly", "check out my", "xxx"]),
  ("COMPLAINT", ["struggling", "doubt", "fake", "shallow", "disappointed", "silent", "abandoned"]),
  ("QUESTION", ["?", "how", "what", "why", "is god", "does god", "can god", "where is god"])]

/-- The score dict built by `_spiritual_keyword_classification`: 2 per
keyword found in the lowercased comment, plus 3 for QUESTION when the
comment contains a literal question mark. -/
def keyword_scores (comment : String) : List (String × Nat) :=
  let comment_lower := pyLower comment
  keyword_patterns.map (fun p =>
    (p.1, (p.2.map (fun k => if containsSub k comment_lower then 2 else 0)).sum
      + (if p.1 = "QUESTION" ∧ containsSub "?" comment = true then 3 else 0)))

/-- `_spiritual_keyword_classification`: the first key attaining the
maximal score if the maximum is positive, else the "QUESTION" default.
(The score dict always has the five entries, so the `[]` arm is
unreachable.) -/
def spiritual_keyword_classification (comment : String) : String :=
  let scores := keyword_scores comment
  if 0 < maxVal (scores.map Prod.snd) then
    match scores with
    | [] => "QUESTION"
    | p :: rest => (pyMaxPairs p rest).1
  else "QUESTION"

/-- `classify_comment`: the zero-shot classifier is modelled by its
outcome `modelTop` - `none` for a raised exception, `some lbl` for the
top-ranked label.  The label is mapped back by exact match over the
description table in declaration order; an unmapped label and an
exception both fall back to the keyword classification. -/
def classify_comment (comment : String) (modelTop : Option String) : String :=
  match modelTop with
  | none => spiritual_keyword_classification comment
  | some top_label =>
    match category_descriptions.find? (fun p => p.2 == top_label) with
    | some p => p.1
    | none => spiritual_keyword_classification comment

/-- The leaking prefixes removed by `_clean_spiritual_reply`. -/
def prefixes_to_remove : List String :=
  ["Write a", "Reply:", "Response:", "Answer:", "Customer:", "Business:", "Examples of"]

/-- Case-insensitive prefix test (ASCII, as `re.IGNORECASE` on this data). -/
def startsWithCI (pfx s : String) : Bool :=
  isPrefixL (pyLower pfx).toList (pyLower s).toList

/-- Index of the first ':' in `l`, or `none` when a newline or the end of
the list comes first (`.` in the pattern `.*?:` cannot cross a newline,
so a colon past a newline never matches). -/
def colonIdx : List Char → Option Nat
  | [] => none
  | c :: rest =>
    if c = ':' then some 0
    else if c = '\n' then none
    else (colonIdx rest).map (· + 1)

/-- One loop iteration of `_clean_spiritual_reply`:
`re.sub(f'^⟨prefix⟩.*?:', '', reply, flags=re.IGNORECASE).strip()`.
The anchored pattern fires only when the text begins with the prefix
(case-insensitively) and a colon follows the prefix before any newline;
it then removes everything through that first colon.  The `.strip()`
runs whether or not the pattern fired. -/
def stripOnePfx (reply pfx : String) : String :=
  let r :=
    if startsWithCI pfx reply then
      match colonIdx (reply.toList.drop pfx.length) with
      | some j => String.mk (reply.toList.drop (pfx.length + j + 1))
      | none => reply
    else reply
  pyStrip r

/-- The prefix-removal loop of `_clean_spiritual_reply`. -/
def stripPrefixes (reply : String) : String :=
  prefixes_to_remove.foldl stripOnePfx reply

/-- Sentence terminators of the split pattern `[.!?]+`. -/
def isTermChar (c : Char) : Bool := c == '.' || c == '!' || c == '?'

/-- `re.split(r'[.!?]+', reply)`, modelled by splitting at every single
terminator: collapsing terminator runs only removes empty fragments,
which the caller filters out anyway. -/
def splitTerms (l : List Char) : List (List Char) :=
  l.foldr (fun c acc =>
    if isTermChar c then [] :: acc
    else
      match acc with
      | [] => [[c]]
      | a :: as => (c :: a) :: as) [[]]

/-- `re.sub(r'\s+[A-Z][a-z]*$', '.', reply)`: a trailing whitespace run
followed by a capitalized word fragment becomes a period.  Parsed from
the right end; the inputs it is applied to end in '.', where the pattern
never matches, so the before-final-newline reading of `$` cannot arise. -/
def dropTrailingCapWord (l : List Char) : List Char :=
  let r := l.reverse
  let low := r.takeWhile (fun c => 'a' ≤ c && c ≤ 'z')
  match r.drop low.length with
  | c :: r3 =>
    if 'A' ≤ c && c ≤ 'Z' then
      let ws := r3.takeWhile pyIsSpace
      if ws ≠ [] then ('.' :: r3.drop ws.length).reverse else l
    else l
  | [] => l

/-- `_clean_spiritual_reply`: drop the prompt, strip leaking prefixes,
keep at most the first two nonempty sentences reassembled with terminal
punctuation, drop a trailing incomplete word, strip. -/
def clean_spiritual_reply (generated_text prompt : String) : String :=
  let reply := pyStrip (pyReplace generated_text prompt "")
  let reply := stripPrefixes reply
  let sentences := ((splitTerms reply.toList).map stripL).filter (fun s => s ≠ [])
  match sentences with
  | [] => ""
  | [s1] => pyStrip (String.mk (dropTrailingCapWord (s1 ++ ['.'])))
  | s1 :: s2 :: _ =>
    pyStrip (String.mk (dropTrailingCapWord (s1 ++ ['.', ' '] ++ s2 ++ ['.'])))

/-- The disallowed marketing phrases of `_is_valid_spiritual_reply`. -/
def inappropriate : List String :=
  ["click here", "buy now", "limited time", "act now", "deal", "discount", "offer expires", "hurry"]

def spiritual_indicators : List String :=
  ["grace", "god", "bless", "journey", "heart", "soul", "faith", "hope", "peace", "love", "truth", "sacred"]

def appropriate_phrases : List String :=
  ["thank you", "grateful", "appreciate", "understand", "hear you", "with you", "for you", "honored"]

/-- `_is_valid_spiritual_reply`: reject empty or short replies, reject a
disallowed marketing phrase, and for the four non-SPAM categories demand
a spiritual or empathetic tone indicator. -/
def is_valid_spiritual_reply (reply category : String) : Bool :=
  if reply = "" ∨ reply.length < 20 then false
  else
    let reply_lower := pyLower reply
    if inappropriate.any (fun p => containsSub p reply_lower) then false
    else if ["LEAD", "PRAISE", "QUESTION", "COMPLAINT"].contains category then
      spiritual_indicators.any (fun w => containsSub w reply_lower)
        || appropriate_phrases.any (fun p => containsSub p reply_lower)
    else true

/-- `generate_reply`: the template response is computed first; the GPT-2
continuation is modelled by its outcome `generated` (`none` for a raised
exception).  A successful continuation is cleaned and validated, and on
rejection or exception the template response is returned. -/
def generate_reply (comment category : String) (generated : Option String) : String :=
  let template_response := get_template_response category comment
  match generated with
  | none => template_response
  | some generated_text =>
    let prompt := (alookup category REPLY_GENERATION_PROMPTS).getD question_reply_generation
    let formatted_prompt := pyReplace prompt "{comment}" comment
    let gpt2_reply := clean_spiritual_reply generated_text formatted_prompt
    if is_valid_spiritual_reply gpt2_reply category then gpt2_reply
    else template_response

/- ------------------------------------------------------------------ -/
/- ghl_integration.py                                                  -/
/- ------------------------------------------------------------------ -/

/-- `GHLIntegration.calculate_engagement_score`: per-category base score
(default 30), fixed bonuses for the "interested" and "hot_lead" keyword
flags, capped at 100. -/
def calculate_engagement_score (category : String) (keyword_matches : List String) : Int :=
  let category_scores : List (String × Int) :=
    [("LEAD", 80), ("QUESTION", 60), ("PRAISE", 70), ("COMPLAINT", 50), ("SPAM", 0)]
  let score := (alookup category category_scores).getD 30
  let score := if keyword_matches.contains "interested" then score + 10 else score
  let score := if keyword_matches.contains "hot_lead" then score + 15 else score
  min score 100

/- ------------------------------------------------------------------ -/
/- Spec-side definitions and claim-support definitions                 -/
/- ------------------------------------------------------------------ -/

/-- Template Responder bucket resolution as the spec words it (section
4.2): "if the contextTag key exists within it, use that bucket; else fall
back to a general bucket if present, else a default bucket, else a single
hard-coded apology/blessing string" - an ordered lookup chain phrased
with key-membership tests.  Compared against `templatesFor`, which is
translated from the code. -/
def respond_spec_bucket (category context : String) : List String :=
  let tset :=
    (alookup category SPIRITUAL_TEMPLATES).getD
      ((alookup "SPAM" SPIRITUAL_TEMPLATES).getD [])
  if keyMem context tset then (alookup context tset).getD []
  else if keyMem "general" tset then (alookup "general" tset).getD []
  else if keyMem "default" tset then (alookup "default" tset).getD []
  else [hardcoded_fallback]

/-- `TemplateResponder.respond(category, contextTag, comment)` as the
spec words it: the chain-resolved bucket indexed at
`(length of comment) mod (bucket size)`. -/
def respond_spec (category context comment : String) : String :=
  let bucket := respond_spec_bucket category context
  bucket.getD (comment.length % bucket.length) ""

/-- Every bucket `templatesFor` can resolve to. -/
def allBuckets : List (List String) :=
  [lead_devotional, lead_general, praise_emotional, praise_general,
   question_doubt, question_seeking, complaint_hurt, complaint_criticism,
   spam_default, [hardcoded_fallback]]

/-- The score of one category in `_spiritual_keyword_classification`'s
dict (0 for a category absent from the pattern table). -/
def scoreFor (comment category : String) : Nat :=
  (alookup category (keyword_scores comment)).getD 0

/-- The claim's "identical comment with `?` removed". -/
def removeQuestionMarks (s : String) : String :=
  String.mk (s.toList.filter (fun c => c ≠ '?'))

/-- All keywords of the classification pattern table. -/
def allPatternKeywords : List String := (keyword_patterns.map Prod.snd).flatten

/-- The pattern keywords other than the bare "?". -/
def nonQmKeywords : List String := allPatternKeywords.filter (fun k => k ≠ "?")

/-- The first category in the pattern table's declaration order whose
score equals the maximal score - the tie-break policy the amended C2
claim asserts, stated from the claim's words.  `none` cannot occur: the
maximum of the nonempty score table is attained by some entry. -/
def firstMaxCategory (comment : String) : Option String :=
  ((keyword_scores comment).find?
    (fun p => p.2 == maxVal ((keyword_scores comment).map Prod.snd))).map Prod.fst

/- ------------------------------------------------------------------ -/
/- Helper lemmas                                                       -/
/- ------------------------------------------------------------------ -/

lemma alookup_mem {α : Type} {k : String} {l : List (String × α)} {v : α}
    (h : alookup k l = some v) : v ∈ l.map Prod.snd := by
  induction l with
  | nil => simp [alookup] at h
  | cons p rest ih =>
    rw [alookup] at h
    split at h
    · simp only [Option.some.injEq] at h
      simp [← h]
    · simp [ih h]

lemma keyMem_eq_isSome {α : Type} (k : String) (l : List (String × α)) :
    keyMem k l = (alookup k l).isSome := by
  induction l with
  | nil => rfl
  | cons p rest ih =>
    by_cases h : p.1 = k
    · simp [keyMem, alookup, h]
    · have h2 : (k == p.1) = false := beq_eq_false_iff_ne.mpr (fun hh => h hh.symm)
      simp only [keyMem, List.map_cons, List.contains_cons, h2, Bool.false_or, alookup,
        if_neg h]
      exact ih

lemma pyMaxPairs_mem (rest : List (String × Nat)) (p : String × Nat) :
    pyMaxPairs p rest ∈ p :: rest := by
  induction rest generalizing p with
  | nil => simp [pyMaxPairs]
  | cons q rest ih =>
    have hstep : pyMaxPairs p (q :: rest) = pyMaxPairs (maxPair p q) rest := rfl
    have hm : maxPair p q = p ∨ maxPair p q = q := by
      unfold maxPair
      split
      · exact Or.inr rfl
      · exact Or.inl rfl
    rw [hstep]
    rcases List.mem_cons.mp (ih (maxPair p q)) with h | h
    · rw [h]
      rcases hm with h2 | h2 <;> rw [h2] <;> simp
    · exact List.mem_cons_of_mem _ (List.mem_cons_of_mem _ h)

lemma colonIdx_none {l : List Char} (h : ∀ c ∈ l, c ≠ ':') : colonIdx l = none := by
  induction l with
  | nil => rfl
  | cons c rest ih =>
    rw [colonIdx, if_neg (h c (by simp))]
    by_cases hn : c = '\n'
    · rw [if_pos hn]
    · rw [if_neg hn, ih (fun x hx => h x (by simp [hx]))]
      rfl

lemma stripOnePfx_id (reply pfx : String) (hstripped : pyStrip reply = reply)
    (h : startsWithCI pfx reply = true → ∀ c ∈ reply.toList.drop pfx.length, c ≠ ':') :
    stripOnePfx reply pfx = reply := by
  simp only [stripOnePfx]
  by_cases hs : startsWithCI pfx reply = true
  · rw [if_pos hs, colonIdx_none (h hs)]
    exact hstripped
  · rw [if_neg hs]
    exact hstripped

lemma foldl_stripOnePfx_id (ps : List String) (reply : String)
    (hstripped : pyStrip reply = reply)
    (h : ∀ pfx ∈ ps, startsWithCI pfx reply = true →
      ∀ c ∈ reply.toList.drop pfx.length, c ≠ ':') :
    ps.foldl stripOnePfx reply = reply := by
  induction ps with
  | nil => rfl
  | cons p rest ih =>
    rw [List.foldl_cons, stripOnePfx_id reply p hstripped (h p (by simp))]
    exact ih (fun pfx hm => h pfx (by simp [hm]))

lemma containsL_single (c : Char) (l : List Char) :
    containsL [c] l = l.any (fun b => c == b) := by
  induction l with
  | nil => rfl
  | cons b rest ih =>
    rw [containsL, List.any_cons, ← ih]
    show (isPrefixL [c] (b :: rest) || containsL [c] rest) = _
    simp [isPrefixL]

lemma qm_not_in_removed (s : String) : containsSub "?" (removeQuestionMarks s) = false := by
  rw [containsSub, show ("?" : String).toList = ['?'] from rfl, containsL_single]
  rw [List.any_eq_false]
  intro x hx
  have hx2 : x ∈ s.toList.filter (fun c => c ≠ '?') := hx
  have := List.of_mem_filter hx2
  simp only [ne_eq, decide_not, Bool.not_eq_true', decide_eq_false_iff_not] at this
  simp only [beq_iff_eq]
  exact fun hh => this hh.symm

lemma getD_mod_eq_get {α : Type} (l : List α) (n : Nat) (d : α) (h : l ≠ []) :
    ∃ hlt : n % l.length < l.length,
      l.getD (n % l.length) d = l.get ⟨n % l.length, hlt⟩ := by
  have hpos : 0 < l.length := List.length_pos.mpr h
  refine ⟨Nat.mod_lt n hpos, ?_⟩
  rw [List.getD, List.get?_eq_get (Nat.mod_lt n hpos)]
  rfl

lemma bucketChain_cases (ct : List (String × List String)) (context : String) :
    bucketChain ct context ∈ ct.map Prod.snd ∨
    bucketChain ct context = (alookup "default" ct).getD [hardcoded_fallback] := by
  unfold bucketChain
  cases h1 : alookup context ct with
  | some ts => exact Or.inl (alookup_mem h1)
  | none =>
    cases h2 : alookup "general" ct with
    | some ts => exact Or.inl (alookup_mem h2)
    | none => exact Or.inr rfl

lemma bucketChain_eq_spec (ct : List (String × List String)) (context : String) :
    bucketChain ct context =
      (if keyMem context ct then (alookup context ct).getD []
       else if keyMem "general" ct then (alookup "general" ct).getD []
       else if keyMem "default" ct then (alookup "default" ct).getD []
       else [hardcoded_fallback]) := by
  unfold bucketChain
  cases h1 : alookup context ct with
  | some ts => simp [keyMem_eq_isSome, h1]
  | none =>
    simp only [keyMem_eq_isSome, h1, Option.isSome_none, Bool.false_eq_true, if_false]
    cases h2 : alookup "general" ct with
    | some ts => simp [h2]
    | none =>
      simp only [h2, Option.isSome_none, Bool.false_eq_true, if_false]
      cases h3 : alookup "default" ct with
      | some ts => simp [h3]
      | none => simp [h3]

set_option maxRecDepth 4000 in
lemma allBuckets_safe : ∀ b ∈ allBuckets, ∀ t ∈ b, 20 ≤ t.length ∧
    ∀ p ∈ inappropriate, containsSub p (pyLower t) = false := by decide

lemma allBuckets_ne_nil : ∀ b ∈ allBuckets, b ≠ [] := by decide

lemma spam_chain_mem (context : String) :
    bucketChain [("default", spam_default)] context ∈ allBuckets := by
  rcases bucketChain_cases [("default", spam_default)] context with h | h
  · simp only [List.map_cons, List.map_nil, List.mem_cons, List.not_mem_nil, or_false] at h
    rw [h]; decide
  · rw [h]; decide

lemma pair_chain_mem (k1 k2 : String) (b1 b2 : List String) (context : String)
    (hb1 : b1 ∈ allBuckets) (hb2 : b2 ∈ allBuckets)
    (hdef : (alookup "default" [(k1, b1), (k2, b2)]).getD [hardcoded_fallback] ∈ allBuckets) :
    bucketChain [(k1, b1), (k2, b2)] context ∈ allBuckets := by
  rcases bucketChain_cases [(k1, b1), (k2, b2)] context with h | h
  · simp only [List.map_cons, List.map_nil, List.mem_cons, List.not_mem_nil, or_false] at h
    rcases h with h | h <;> rw [h] <;> assumption
  · rw [h]; exact hdef

lemma templatesFor_mem (category context : String) :
    templatesFor category context ∈ allBuckets := by
  unfold templatesFor
  cases h1 : alookup category SPIRITUAL_TEMPLATES with
  | none =>
    simp only [Option.getD_none]
    have e : (alookup "SPAM" SPIRITUAL_TEMPLATES).getD ([] : List (String × List String)) =
        [("default", spam_default)] := rfl
    rw [e]
    exact spam_chain_mem context
  | some ct =>
    simp only [Option.getD_some]
    have hct := alookup_mem h1
    simp only [SPIRITUAL_TEMPLATES, List.map_cons, List.map_nil, List.mem_cons,
      List.not_mem_nil, or_false] at hct
    rcases hct with h | h | h | h | h <;> subst h
    · exact pair_chain_mem _ _ _ _ context (by decide) (by decide) (by decide)
    · exact pair_chain_mem _ _ _ _ context (by decide) (by decide) (by decide)
    · exact pair_chain_mem _ _ _ _ context (by decide) (by decide) (by decide)
    · exact pair_chain_mem _ _ _ _ context (by decide) (by decide) (by decide)
    · exact spam_chain_mem context

lemma templatesFor_eq_spec (category context : String) :
    templatesFor category context = respond_spec_bucket category context := by
  unfold templatesFor respond_spec_bucket
  exact bucketChain_eq_spec _ context

lemma respond_eq (category comment : String) :
    get_template_response category comment =
      respond_spec category (get_keyword_context comment) comment := by
  show (templatesFor category (get_keyword_context comment)).getD
      (comment.length % (templatesFor category (get_keyword_context comment)).length) "" =
    (respond_spec_bucket category (get_keyword_context comment)).getD
      (comment.length % (respond_spec_bucket category (get_keyword_context comment)).length) ""
  rw [templatesFor_eq_spec]

lemma template_props (category comment : String) :
    20 ≤ (get_template_response category comment).length ∧
    ∀ p ∈ inappropriate, containsSub p (pyLower (get_template_response category comment)) = false := by
  have hmem := templatesFor_mem category (get_keyword_context comment)
  have hne := allBuckets_ne_nil _ hmem
  obtain ⟨hlt, heq⟩ := getD_mod_eq_get
    (templatesFor category (get_keyword_context comment)) comment.length "" hne
  have hrw : get_template_response category comment =
      (templatesFor category (get_keyword_context comment)).getD
        (comment.length % (templatesFor category (get_keyword_context comment)).length) "" := rfl
  rw [hrw, heq]
  exact allBuckets_safe _ hmem _ (List.get_mem _ _ _)

lemma valid_props {r c : String} (h : is_valid_spiritual_reply r c = true) :
    20 ≤ r.length ∧ ∀ p ∈ inappropriate, containsSub p (pyLower r) = false := by
  simp only [is_valid_spiritual_reply] at h
  split at h
  · exact absurd h (by simp)
  · next hcond =>
    push_neg at hcond
    obtain ⟨hc1, hc2⟩ := hcond
    split at h
    · exact absurd h (by simp)
    · next hforb =>
      refine ⟨by omega, ?_⟩
      intro p hp
      cases hres : containsSub p (pyLower r) with
      | false => rfl
      | true => exact absurd (List.any_eq_true.mpr ⟨p, hp, hres⟩) hforb

lemma scoreFor_LEAD (comment : String) : scoreFor comment "LEAD" =
    ((["devotional", "interested", "get this", "how can i", "want to", "course", "resource"].map
      (fun k => if containsSub k (pyLower comment) then 2 else 0)).sum) := by
  simp +decide only [scoreFor, keyword_scores, keyword_patterns, List.map, alookup,
    ite_true, ite_false, false_and, true_and, if_false, if_true, Option.getD_some, add_zero]

lemma scoreFor_PRAISE (comment : String) : scoreFor comment "PRAISE" =
    ((["blessed", "grateful", "thank", "moved", "powerful", "tears", "crying", "amazing"].map
      (fun k => if containsSub k (pyLower comment) then 2 else 0)).sum) := by
  simp +decide only [scoreFor, keyword_scores, keyword_patterns, List.map, alookup,
    ite_true, ite_false, false_and, true_and, if_false, if_true, Option.getD_some, add_zero]

lemma scoreFor_SPAM (comment : String) : scoreFor comment "SPAM" =
    ((["click here", "free followers", "bit.ly", "check out my", "xxx"].map
      (fun k => if containsSub k (pyLower comment) then 2 else 0)).sum) := by
  simp +decide only [scoreFor, keyword_scores, keyword_patterns, List.map, alookup,
    ite_true, ite_false, false_and, true_and, if_false, if_true, Option.getD_some, add_zero]

lemma scoreFor_COMPLAINT (comment : String) : scoreFor comment "COMPLAINT" =
    ((["struggling", "doubt", "fake", "shallow", "disappointed", "silent", "abandoned"].map
      (fun k => if containsSub k (pyLower comment) then 2 else 0)).sum) := by
  simp +decide only [scoreFor, keyword_scores, keyword_patterns, List.map, alookup,
    ite_true, ite_false, false_and, true_and, if_false, if_true, Option.getD_some, add_zero]

lemma scoreFor_QUESTION (comment : String) : scoreFor comment "QUESTION" =
    ((["?", "how", "what", "why", "is god", "does god", "can god", "where is god"].map
      (fun k => if containsSub k (pyLower comment) then 2 else 0)).sum
      + (if containsSub "?" comment = true then 3 else 0)) := by
  simp +decide only [scoreFor, keyword_scores, keyword_patterns, List.map, alookup,
    ite_true, ite_false, false_and, true_and, if_false, if_true, Option.getD_some]

lemma pyMaxPairs5_fst (a b s d e : Nat) :
    (pyMaxPairs ("LEAD", a) [("PRAISE", b), ("SPAM", s), ("COMPLAINT", d), ("QUESTION", e)]).1 ∈
      (["LEAD", "PRAISE", "SPAM", "QUESTION", "COMPLAINT"] : List String) := by
  have h := pyMaxPairs_mem [("PRAISE", b), ("SPAM", s), ("COMPLAINT", d), ("QUESTION", e)]
    ("LEAD", a)
  simp only [List.mem_cons, List.not_mem_nil, or_false] at h
  rcases h with h | h | h | h | h <;> rw [h] <;> simp

lemma maxPair_snd (p q : String × Nat) : (maxPair p q).2 = Nat.max p.2 q.2 := by
  unfold maxPair
  split
  · next h => exact (Nat.max_eq_right (Nat.le_of_lt h)).symm
  · next h => exact (Nat.max_eq_left (Nat.le_of_not_lt h)).symm

lemma pyMaxPairs_cons (p q : String × Nat) (rest : List (String × Nat)) :
    pyMaxPairs p (q :: rest) = pyMaxPairs (maxPair p q) rest := rfl

lemma pyMaxPairs_snd_le (rest : List (String × Nat)) (p : String × Nat) :
    p.2 ≤ (pyMaxPairs p rest).2 := by
  induction rest generalizing p with
  | nil => exact Nat.le_refl _
  | cons q rest ih =>
    rw [pyMaxPairs_cons]
    refine Nat.le_trans ?_ (ih (maxPair p q))
    rw [maxPair_snd]
    exact Nat.le_max_left _ _

lemma pyMaxPairs_snd_ub (rest : List (String × Nat)) (p : String × Nat) :
    ∀ q ∈ p :: rest, q.2 ≤ (pyMaxPairs p rest).2 := by
  induction rest generalizing p with
  | nil =>
    intro q hq
    simp only [List.mem_singleton] at hq
    subst hq
    exact Nat.le_refl _
  | cons r rest ih =>
    intro q hq
    rw [pyMaxPairs_cons]
    rcases List.mem_cons.mp hq with h | h
    · subst h
      calc q.2 ≤ (maxPair q r).2 := by rw [maxPair_snd]; exact Nat.le_max_left _ _
        _ ≤ (pyMaxPairs (maxPair q r) rest).2 := pyMaxPairs_snd_le rest (maxPair q r)
    · rcases List.mem_cons.mp h with h2 | h2
      · subst h2
        calc q.2 ≤ (maxPair p q).2 := by rw [maxPair_snd]; exact Nat.le_max_right _ _
          _ ≤ (pyMaxPairs (maxPair p q) rest).2 := pyMaxPairs_snd_le rest (maxPair p q)
      · exact ih (maxPair p r) q (List.mem_cons_of_mem _ h2)

lemma pyMaxPairs_snd_eq_maxVal (rest : List (String × Nat)) (p : String × Nat) :
    (pyMaxPairs p rest).2 = maxVal ((p :: rest).map Prod.snd) := by
  induction rest generalizing p with
  | nil => simp [pyMaxPairs, maxVal, Nat.zero_max]
  | cons q rest ih =>
    rw [pyMaxPairs_cons, ih (maxPair p q)]
    simp only [List.map_cons, maxVal, List.foldl, maxPair_snd]
    congr 1
    have e1 : Nat.max 0 (Nat.max p.2 q.2) = Nat.max p.2 q.2 :=
      Nat.max_eq_right (Nat.zero_le _)
    have e2 : Nat.max 0 p.2 = p.2 := Nat.max_eq_right (Nat.zero_le _)
    rw [e1, e2]

lemma pyMaxPairs_first (rest : List (String × Nat)) (p : String × Nat) :
    (p :: rest).find? (fun q => decide ((pyMaxPairs p rest).2 ≤ q.2)) =
      some (pyMaxPairs p rest) := by
  induction rest generalizing p with
  | nil =>
    rw [show pyMaxPairs p [] = p from rfl]
    exact List.find?_cons_of_pos _ (by simp)
  | cons q rest ih =>
    rw [pyMaxPairs_cons]
    by_cases hpq : q.2 > p.2
    · have hm : maxPair p q = q := by unfold maxPair; rw [if_pos hpq]
      rw [hm]
      have hlt : p.2 < (pyMaxPairs q rest).2 :=
        Nat.lt_of_lt_of_le hpq (pyMaxPairs_snd_le rest q)
      rw [List.find?_cons_of_neg _ (by simp only [decide_eq_true_eq]; omega)]
      exact ih q
    · have hm : maxPair p q = p := by unfold maxPair; rw [if_neg hpq]
      rw [hm]
      have hthis := ih p
      by_cases hp : (pyMaxPairs p rest).2 ≤ p.2
      · rw [List.find?_cons_of_pos _ (by simpa using hp)]
        rw [List.find?_cons_of_pos _ (by simpa using hp)] at hthis
        exact hthis
      · rw [List.find?_cons_of_neg _ (by simpa using hp)]
        rw [List.find?_cons_of_neg _ (by simpa using hp)] at hthis
        rw [List.find?_cons_of_neg _ (by simp only [decide_eq_true_eq]; omega)]
        exact hthis

lemma find?_max_pred_eq (l : List (String × Nat)) (m : Nat)
    (hub : ∀ q ∈ l, q.2 ≤ m) :
    l.find? (fun q => q.2 == m) = l.find? (fun q => decide (m ≤ q.2)) := by
  induction l with
  | nil => rfl
  | cons p rest ih =>
    have hp := hub p (by simp)
    have heq : (p.2 == m) = decide (m ≤ p.2) := by
      by_cases h : p.2 = m
      · simp [h]
      · have e1 : (p.2 == m) = false := beq_eq_false_iff_ne.mpr h
        have e2 : decide (m ≤ p.2) = false := decide_eq_false (by omega)
        rw [e1, e2]
    simp only [List.find?_cons]
    rw [heq]
    cases hd : decide (m ≤ p.2) with
    | true => rfl
    | false => exact ih (fun q hq => hub q (List.mem_cons_of_mem _ hq))

lemma maxVal_zero {l : List (String × Nat)} (h : ∀ p ∈ l, p.2 = 0) :
    maxVal (l.map Prod.snd) = 0 := by
  induction l with
  | nil => rfl
  | cons p rest ih =>
    have hp := h p (by simp)
    have hrest := ih (fun q hq => h q (by simp [hq]))
    simp only [List.map_cons, maxVal, List.foldl] at *
    rw [hp]
    simpa using hrest

lemma keyword_scores_shape (comment : String) : ∃ a b s d e,
    keyword_scores comment =
      [("LEAD", a), ("PRAISE", b), ("SPAM", s), ("COMPLAINT", d), ("QUESTION", e)] :=
  ⟨_, _, _, _, _, rfl⟩

lemma skc_mem (comment : String) :
    spiritual_keyword_classification comment ∈
      (["LEAD", "PRAISE", "SPAM", "QUESTION", "COMPLAINT"] : List String) := by
  obtain ⟨a, b, s, d, e, hsc⟩ := keyword_scores_shape comment
  simp only [spiritual_keyword_classification]
  rw [hsc]
  split
  · exact pyMaxPairs5_fst a b s d e
  · simp

lemma skc_zero (comment : String) (h : ∀ p ∈ keyword_scores comment, p.2 = 0) :
    spiritual_keyword_classification comment = "QUESTION" := by
  simp only [spiritual_keyword_classification]
  rw [if_neg]
  have hm := maxVal_zero h
  omega

/- ------------------------------------------------------------------ -/
/- Claim theorems                                                      -/
/- ------------------------------------------------------------------ -/

/-- C1: for every category, every comment and every possible outcome of
the text-generation capability (including failure), `generate_reply`
never returns a string containing a configured disallowed marketing
phrase and never returns a string shorter than 20 characters, on both
the model path and the template-fallback path. -/
theorem C1_reply_safety (comment category : String) (generated : Option String) :
    20 ≤ (generate_reply comment category generated).length ∧
    ∀ p ∈ inappropriate,
      containsSub p (pyLower (generate_reply comment category generated)) = false := by
  cases generated with
  | none => exact template_props category comment
  | some generated_text =>
    by_cases hv : is_valid_spiritual_reply
        (clean_spiritual_reply generated_text
          (pyReplace ((alookup category REPLY_GENERATION_PROMPTS).getD question_reply_generation)
            "{comment}" comment)) category = true
    · have hr : generate_reply comment category (some generated_text) =
          clean_spiritual_reply generated_text
            (pyReplace ((alookup category REPLY_GENERATION_PROMPTS).getD question_reply_generation)
              "{comment}" comment) := by
        simp only [generate_reply]
        rw [if_pos hv]
      rw [hr]
      exact valid_props hv
    · have hr : generate_reply comment category (some generated_text) =
          get_template_response category comment := by
        simp only [generate_reply]
        rw [if_neg hv]
      rw [hr]
      exact template_props category comment

/-- C2 counterexample: the comment "struggling how" scores 2 on both
QUESTION and COMPLAINT - the joint maximum - yet the keyword classifier
returns COMPLAINT, not QUESTION as the claim's canonical order
[LEAD, PRAISE, SPAM, QUESTION, COMPLAINT] would demand. -/
theorem C2_tie_break_counterexample :
    scoreFor "struggling how" "QUESTION" = scoreFor "struggling how" "COMPLAINT" ∧
    0 < scoreFor "struggling how" "QUESTION" ∧
    scoreFor "struggling how" "LEAD" < scoreFor "struggling how" "QUESTION" ∧
    scoreFor "struggling how" "PRAISE" < scoreFor "struggling how" "QUESTION" ∧
    scoreFor "struggling how" "SPAM" < scoreFor "struggling how" "QUESTION" ∧
    spiritual_keyword_classification "struggling how" = "COMPLAINT" ∧
    spiritual_keyword_classification "struggling how" ≠ "QUESTION" := by decide

/-- C2 (amended): whenever the maximal keyword score is positive - in
particular on every maximal tie between two or more categories - the
keyword classifier returns exactly the first category in the pattern
table's declaration order [LEAD, PRAISE, SPAM, COMPLAINT, QUESTION]
whose score attains the maximum (first declared wins); so a comment
scoring equally and maximally on QUESTION and COMPLAINT is classified
COMPLAINT. -/
theorem C2_tie_break_amended (comment : String)
    (hpos : 0 < maxVal ((keyword_scores comment).map Prod.snd)) :
    firstMaxCategory comment = some (spiritual_keyword_classification comment) := by
  obtain ⟨a, b, s, d, e, hsc⟩ := keyword_scores_shape comment
  simp only [firstMaxCategory, spiritual_keyword_classification]
  rw [hsc] at hpos ⊢
  rw [if_pos hpos]
  have hval := pyMaxPairs_snd_eq_maxVal
    [("PRAISE", b), ("SPAM", s), ("COMPLAINT", d), ("QUESTION", e)] ("LEAD", a)
  have hub : ∀ q ∈ (("LEAD", a) ::
        [("PRAISE", b), ("SPAM", s), ("COMPLAINT", d), ("QUESTION", e)]),
      q.2 ≤ maxVal (List.map Prod.snd
        [("LEAD", a), ("PRAISE", b), ("SPAM", s), ("COMPLAINT", d), ("QUESTION", e)]) := by
    intro q hq
    rw [← hval]
    exact pyMaxPairs_snd_ub _ _ q hq
  rw [find?_max_pred_eq _ _ hub]
  simp only [← hval]
  rw [pyMaxPairs_first]
  rfl

/-- C2 witness: on "struggling how" (a maximal QUESTION/COMPLAINT tie)
the maximal score is positive, the first-declared maximal category is
COMPLAINT, and the classifier returns it. -/
theorem C2_tie_break_witness :
    0 < maxVal ((keyword_scores "struggling how").map Prod.snd) ∧
    firstMaxCategory "struggling how" = some "COMPLAINT" ∧
    firstMaxCategory "struggling how" =
      some (spiritual_keyword_classification "struggling how") :=
  ⟨by decide, by decide, C2_tie_break_amended "struggling how" (by decide)⟩

/-- C3: if the text-continuation capability raises on every invocation
(modelled by the `none` outcome), `generate_reply` returns exactly
`get_template_response(category, comment)`, which equals the Template
Responder of the spec applied to the category, the comment's context tag
and the comment. -/
theorem C3_fallback_guarantee (comment category : String) :
    generate_reply comment category none = get_template_response category comment ∧
    generate_reply comment category none =
      respond_spec category (get_keyword_context comment) comment :=
  ⟨rfl, respond_eq category comment⟩

/-- C4 counterexample: "Reply: bless you" begins with the configured
leaking prefix "Reply:", yet the prefix-removal loop leaves it
unchanged, and the full cleaning step still emits the prefix: the regex
`^Reply:.*?:` only fires when another colon follows the prefix. -/
theorem C4_prefix_strip_counterexample :
    ("Reply:" : String) ∈ prefixes_to_remove ∧
    startsWithCI "Reply:" "Reply: bless you" = true ∧
    stripPrefixes "Reply: bless you" = "Reply: bless you" ∧
    clean_spiritual_reply "XYZ Reply: bless you" "XYZ " = "Reply: bless you." := by decide

/-- C4 (amended): a configured leaking prefix at the start of the text
is removed (together with everything up to the first following colon)
only when such a colon exists after the prefix.  For a
whitespace-trimmed text - as the cleaning step always feeds the loop
after `replace(prompt, "").strip()` - on which no configured prefix
matching the start (case-insensitively) is followed by a colon, the
whole seven-prefix stripping pass leaves the text unchanged. -/
theorem C4_prefix_strip_amended (reply : String)
    (hstripped : pyStrip reply = reply)
    (hnocolon : ∀ pfx ∈ prefixes_to_remove, startsWithCI pfx reply = true →
      ∀ c ∈ reply.toList.drop pfx.length, c ≠ ':') :
    stripPrefixes reply = reply :=
  foldl_stripOnePfx_id prefixes_to_remove reply hstripped hnocolon

/-- C4 witness: the amended statement evaluated at "Reply: bless you",
a trimmed text that begins with the configured prefix "Reply:" and has
no colon after it. -/
theorem C4_prefix_strip_witness :
    ("Reply:" : String) ∈ prefixes_to_remove ∧
    startsWithCI "Reply:" "Reply: bless you" = true ∧
    pyStrip "Reply: bless you" = "Reply: bless you" ∧
    stripPrefixes "Reply: bless you" = "Reply: bless you" :=
  ⟨by decide, by decide, by decide,
    C4_prefix_strip_amended "Reply: bless you" (by decide) (by decide)⟩

/-- C5: for every category string and every list of keyword-match flags,
`calculate_engagement_score` is an integer in [0, 100], and
`calculate_engagement_score "SPAM" []` equals the configured SPAM base
score 0. -/
theorem C5_engagement_bounds (category : String) (keyword_matches : List String) :
    0 ≤ calculate_engagement_score category keyword_matches ∧
    calculate_engagement_score category keyword_matches ≤ 100 ∧
    calculate_engagement_score "SPAM" [] = 0 := by
  have hbase : 0 ≤ (alookup category
      [("LEAD", (80 : Int)), ("QUESTION", 60), ("PRAISE", 70), ("COMPLAINT", 50),
        ("SPAM", 0)]).getD 30 ∧
      (alookup category
      [("LEAD", (80 : Int)), ("QUESTION", 60), ("PRAISE", 70), ("COMPLAINT", 50),
        ("SPAM", 0)]).getD 30 ≤ 80 := by
    cases h : alookup category
        [("LEAD", (80 : Int)), ("QUESTION", 60), ("PRAISE", 70), ("COMPLAINT", 50),
          ("SPAM", 0)] with
    | none => norm_num
    | some v =>
      have hv := alookup_mem h
      simp only [List.map_cons, List.map_nil, List.mem_cons, List.not_mem_nil,
        or_false] at hv
      rcases hv with h2 | h2 | h2 | h2 | h2 <;> subst h2 <;> norm_num
  obtain ⟨hb0, hb80⟩ := hbase
  refine ⟨?_, ?_, by decide⟩ <;>
  · simp only [calculate_engagement_score, Int.min_def]
    split_ifs <;> omega

/-- C6: `get_template_response` resolves its bucket by the spec's
ordered default chain - the context bucket when the context key exists,
else the "general" bucket when present, else the "default" bucket when
present, else the single hard-coded fallback string - as captured by the
spec-side responder `respond_spec`. -/
theorem C6_bucket_resolution (category comment : String) :
    get_template_response category comment =
      respond_spec category (get_keyword_context comment) comment :=
  respond_eq category comment

/-- C7: the template returned is exactly the element of the resolved
bucket at index `(length of comment) mod (bucket size)`: the index is
always in bounds and the out-of-range default is never taken, so the
function is a pure selection and repeated calls agree. -/
theorem C7_template_index (category comment : String) :
    ∃ hlt : comment.length % (templatesFor category (get_keyword_context comment)).length <
        (templatesFor category (get_keyword_context comment)).length,
      get_template_response category comment =
        (templatesFor category (get_keyword_context comment)).get
          ⟨comment.length % (templatesFor category (get_keyword_context comment)).length,
            hlt⟩ := by
  have hne := allBuckets_ne_nil _ (templatesFor_mem category (get_keyword_context comment))
  obtain ⟨hlt, heq⟩ := getD_mod_eq_get
    (templatesFor category (get_keyword_context comment)) comment.length "" hne
  exact ⟨hlt, heq⟩

/-- C8: classification always yields a member of the closed category
enum - on the model path, on the unmapped-label path and on the keyword
fallback - and when every keyword score is zero the fallback returns the
default category QUESTION. -/
theorem C8_total_coverage (comment : String) (modelTop : Option String) :
    classify_comment comment modelTop ∈
      (["LEAD", "PRAISE", "SPAM", "QUESTION", "COMPLAINT"] : List String) ∧
    ((∀ p ∈ keyword_scores comment, p.2 = 0) →
      spiritual_keyword_classification comment = "QUESTION") := by
  refine ⟨?_, fun h => skc_zero comment h⟩
  cases modelTop with
  | none => exact skc_mem comment
  | some top_label =>
    simp only [classify_comment]
    cases hf : category_descriptions.find? (fun p => p.2 == top_label) with
    | none => exact skc_mem comment
    | some p =>
      have hmem := List.mem_of_find?_eq_some hf
      simp only [category_descriptions, List.mem_cons, List.not_mem_nil, or_false] at hmem
      rcases hmem with h | h | h | h | h <;> subst h <;> simp

/-- C8 witness: on "zzz" (no keyword matches) with the classifier
erroring, the result is a member of the enum and the fallback returns
QUESTION. -/
theorem C8_total_coverage_witness :
    classify_comment "zzz" none ∈
      (["LEAD", "PRAISE", "SPAM", "QUESTION", "COMPLAINT"] : List String) ∧
    spiritual_keyword_classification "zzz" = "QUESTION" :=
  ⟨(C8_total_coverage "zzz" none).1, (C8_total_coverage "zzz" none).2 (by decide)⟩

/-- C9 counterexample: "ho?w wh?at wh?y" contains "?" and no other
configured keyword, yet removing the question marks yields
"how what why", whose QUESTION score 6 exceeds the original's 5: the
claimed strict inequality fails because deleting "?" can create new
keyword matches. -/
theorem C9_question_bonus_counterexample :
    containsSub "?" "ho?w wh?at wh?y" = true ∧
    (∀ k ∈ nonQmKeywords, containsSub k (pyLower "ho?w wh?at wh?y") = false) ∧
    removeQuestionMarks "ho?w wh?at wh?y" = "how what why" ∧
    scoreFor "ho?w wh?at wh?y" "QUESTION" = 5 ∧
    scoreFor (removeQuestionMarks "ho?w wh?at wh?y") "QUESTION" = 6 ∧
    ¬(scoreFor (removeQuestionMarks "ho?w wh?at wh?y") "QUESTION" <
        scoreFor "ho?w wh?at wh?y" "QUESTION") := by decide

/-- C9 (amended): for every comment containing "?" and no other
configured keyword, and whose question-mark-stripped version contains no
configured keyword either, the QUESTION score strictly drops when "?" is
removed and every other category's score is unchanged. -/
theorem C9_question_bonus_amended (comment : String)
    (h1 : containsSub "?" comment = true)
    (h2 : ∀ k ∈ nonQmKeywords, containsSub k (pyLower comment) = false)
    (h3 : ∀ k ∈ allPatternKeywords,
      containsSub k (pyLower (removeQuestionMarks comment)) = false) :
    scoreFor (removeQuestionMarks comment) "QUESTION" < scoreFor comment "QUESTION" ∧
    ∀ c ∈ (["LEAD", "PRAISE", "SPAM", "COMPLAINT"] : List String),
      scoreFor comment c = scoreFor (removeQuestionMarks comment) c := by
  have h4 : containsSub "?" (removeQuestionMarks comment) = false := qm_not_in_removed comment
  constructor
  · rw [scoreFor_QUESTION, scoreFor_QUESTION]
    simp only [List.map_cons, List.map_nil, List.sum_cons, List.sum_nil]
    rw [h1, h4]
    rw [h3 "?" (by decide), h3 "how" (by decide), h3 "what" (by decide), h3 "why" (by decide),
      h3 "is god" (by decide), h3 "does god" (by decide), h3 "can god" (by decide),
      h3 "where is god" (by decide)]
    rw [h2 "how" (by decide), h2 "what" (by decide), h2 "why" (by decide),
      h2 "is god" (by decide), h2 "does god" (by decide), h2 "can god" (by decide),
      h2 "where is god" (by decide)]
    simp only [Bool.false_eq_true, if_false, if_true, add_zero, Nat.zero_add, Nat.add_zero]
    split <;> omega
  · intro c hc
    fin_cases hc
    · rw [scoreFor_LEAD, scoreFor_LEAD]
      simp (disch := decide) only [List.map_cons, List.map_nil, List.sum_cons, List.sum_nil,
        h2, h3, Bool.false_eq_true, if_false]
    · rw [scoreFor_PRAISE, scoreFor_PRAISE]
      simp (disch := decide) only [List.map_cons, List.map_nil, List.sum_cons, List.sum_nil,
        h2, h3, Bool.false_eq_true, if_false]
    · rw [scoreFor_SPAM, scoreFor_SPAM]
      simp (disch := decide) only [List.map_cons, List.map_nil, List.sum_cons, List.sum_nil,
        h2, h3, Bool.false_eq_true, if_false]
    · rw [scoreFor_COMPLAINT, scoreFor_COMPLAINT]
      simp (disch := decide) only [List.map_cons, List.map_nil, List.sum_cons, List.sum_nil,
        h2, h3, Bool.false_eq_true, if_false]

/-- C9 witness: the amended statement evaluated at the comment "??". -/
theorem C9_question_bonus_witness :
    containsSub "?" "??" = true ∧
    (∀ k ∈ nonQmKeywords, containsSub k (pyLower "??") = false) ∧
    (∀ k ∈ allPatternKeywords, containsSub k (pyLower (removeQuestionMarks "??")) = false) ∧
    (scoreFor (removeQuestionMarks "??") "QUESTION" < scoreFor "??" "QUESTION" ∧
      ∀ c ∈ (["LEAD", "PRAISE", "SPAM", "COMPLAINT"] : List String),
        scoreFor "??" c = scoreFor (removeQuestionMarks "??") c) :=
  ⟨by decide, by decide, by decide,
    C9_question_bonus_amended "??" (by decide) (by decide) (by decide)⟩

/-- C10: for every category string outside the five configured
categories, template lookup is total and resolves from the SPAM template
set: the response equals the SPAM response for the same comment. -/
theorem C10_unknown_category (category comment : String)
    (h : category ∉ (["LEAD", "PRAISE", "SPAM", "QUESTION", "COMPLAINT"] : List String)) :
    get_template_response category comment = get_template_response "SPAM" comment := by
  simp only [List.mem_cons, List.not_mem_nil, or_false, not_or] at h
  obtain ⟨h1, h2, h3, h4, h5⟩ := h
  have hnone : alookup category SPIRITUAL_TEMPLATES = none := by
    simp only [SPIRITUAL_TEMPLATES, alookup]
    rw [if_neg (fun hh => h1 hh.symm), if_neg (fun hh => h2 hh.symm),
      if_neg (fun hh => h4 hh.symm), if_neg (fun hh => h5 hh.symm),
      if_neg (fun hh => h3 hh.symm)]
  simp only [get_template_response, templatesFor]
  rw [hnone]
  rfl

/-- C10 witness: the unknown category "FOO" resolves to the SPAM
response. -/
theorem C10_unknown_category_witness :
    ("FOO" : String) ∉ (["LEAD", "PRAISE", "SPAM", "QUESTION", "COMPLAINT"] : List String) ∧
    get_template_response "FOO" "hi" = get_template_response "SPAM" "hi" :=
  ⟨by decide, C10_unknown_category "FOO" "hi" (by decide)⟩
